import Mathlib

/-!
Verification of the weather-data-pipeline ELT core against its source.

The development shallowly embeds the Python modules `extract.py`, `load.py`
and `transform.py`: SQLite tables become lists of typed rows, pandas
DataFrames become lists of records, JSON values become an inductive type,
Python exceptions become `Except` errors, and SQL REAL / Python float
measurements are modelled as exact rationals.
-/

set_option autoImplicit false

namespace WeatherPipeline

/-- Calendar timestamp as produced by `datetime.fromtimestamp` and stored in
the database. `date` is the calendar-day component (what SQLite `date()`
extracts from the stored text) and `tod` the remaining time within the day. -/
structure DateTime where
  date : Int
  tod : ℚ
deriving DecidableEq

/-- Conversion of an epoch-second count to a calendar timestamp: the day is
the floor of `q / 86400`, computed on the numerator and denominator, and the
time of day is the remainder `q - 86400 * day`. -/
def epochToDateTime (q : ℚ) : DateTime :=
  let d : Int := Int.fdiv q.num (86400 * (q.den : Int))
  ⟨d, mkRat (q.num - 86400 * (q.den : Int) * d) q.den⟩

/-- One row of the `forecast` table as read back into a DataFrame by
`get_forecast_data` (`SELECT * FROM forecast`). Numeric columns are modelled
as rationals, `forecast_time` as a calendar timestamp. -/
structure ForecastRecord where
  city_id : ℚ := 0
  city_name : String := ""
  country : String := ""
  forecast_time : DateTime := ⟨0, 0⟩
  weather_main : String := ""
  weather_description : String := ""
  temperature : ℚ := 0
  feels_like : ℚ := 0
  temp_min : ℚ := 0
  temp_max : ℚ := 0
  pressure : ℚ := 0
  humidity : ℚ := 0
  wind_speed : ℚ := 0
  wind_direction : ℚ := 0
  cloudiness : ℚ := 0
  rain_3h : ℚ := 0
  snow_3h : ℚ := 0
  retrieved_at : String := ""
deriving DecidableEq

/-- The extreme-weather mask of `find_extreme_weather_events`
(transform.py lines 141-151): the disjunction of the five strict
comparisons. -/
def isExtreme (r : ForecastRecord) : Bool :=
  decide (r.temperature < -10) || decide (r.temperature > 40) ||
  decide (r.wind_speed > 20) || decide (r.rain_3h > 10) || decide (r.snow_3h > 10)

/-- `q * 10` rounded to an integer, ties to even, as Python float formatting
does; computed on the numerator and denominator (`f` is the floor of
`10q` and `r` the leftover numerator, so `2r` versus `den` compares the
fractional part with one half). -/
def roundTenthsHalfEven (q : ℚ) : Int :=
  let n := 10 * q.num
  let d : Int := (q.den : Int)
  let f := Int.fdiv n d
  let r := n - f * d
  if 2 * r < d then f
  else if 2 * r > d then f + 1
  else if f % 2 = 0 then f else f + 1

/-- Python fixed-point formatting `f"{x:.1f}"`: one decimal place. -/
def formatFixed1 (q : ℚ) : String :=
  let n := roundTenthsHalfEven q
  let sign := if n < 0 then "-" else ""
  sign ++ toString (n.natAbs / 10) ++ "." ++ toString (n.natAbs % 10)

/-- The per-row description loop of `find_extreme_weather_events`
(transform.py lines 158-169): `event_descriptions` accumulates one clause per
matching condition, in source order. -/
def eventClauses (r : ForecastRecord) : List String :=
  let ds : List String := []
  let ds := if r.temperature < -10 then ds ++ ["Extreme cold: " ++ formatFixed1 r.temperature ++ "°C"] else ds
  let ds := if r.temperature > 40 then ds ++ ["Extreme heat: " ++ formatFixed1 r.temperature ++ "°C"] else ds
  let ds := if r.wind_speed > 20 then ds ++ ["Strong winds: " ++ formatFixed1 r.wind_speed ++ " m/s"] else ds
  let ds := if r.rain_3h > 10 then ds ++ ["Heavy rain: " ++ formatFixed1 r.rain_3h ++ " mm/3h"] else ds
  let ds := if r.snow_3h > 10 then ds ++ ["Heavy snow: " ++ formatFixed1 r.snow_3h ++ " mm/3h"] else ds
  ds

/-- The `"; ".join(event_descriptions)` of transform.py line 171. -/
def eventDescription (r : ForecastRecord) : String :=
  String.intercalate "; " (eventClauses r)

/-- `find_extreme_weather_events` over the forecast table: the rows matching
the extreme mask, each paired with its `event_description` column. -/
def find_extreme_weather_events (tbl : List ForecastRecord) : List (ForecastRecord × String) :=
  (tbl.filter isExtreme).map (fun r => (r, eventDescription r))

/-- Spec-side clause table for the description (refinement target): the five
predicates in the spec's fixed order cold, heat, wind, rain, snow, each with
its clause formatted to one decimal place. -/
def specClauseTable (r : ForecastRecord) : List (Bool × String) :=
  [ (decide (r.temperature < -10), "Extreme cold: " ++ formatFixed1 r.temperature ++ "°C"),
    (decide (r.temperature > 40), "Extreme heat: " ++ formatFixed1 r.temperature ++ "°C"),
    (decide (r.wind_speed > 20), "Strong winds: " ++ formatFixed1 r.wind_speed ++ " m/s"),
    (decide (r.rain_3h > 10), "Heavy rain: " ++ formatFixed1 r.rain_3h ++ " mm/3h"),
    (decide (r.snow_3h > 10), "Heavy snow: " ++ formatFixed1 r.snow_3h ++ " mm/3h") ]

/-- Spec-side description: exactly one clause per matching predicate, joined
by the separator, in the fixed predicate order. -/
def specDescription (r : ForecastRecord) : String :=
  String.intercalate "; " ((specClauseTable r).filterMap (fun c => if c.1 then some c.2 else none))

/-- Mean forecast temperature of one city, over every loaded record of that
city: the `groupby('city_name')['temperature'].mean()` of transform.py
line 116. -/
def cityMeanTemp (tbl : List ForecastRecord) (city : String) : ℚ :=
  let temps := (tbl.filter (fun r => r.city_name == city)).map (fun r => r.temperature)
  temps.sum / temps.length

/-- One output row of `calculate_temperature_anomalies` (the selected columns
of transform.py line 125). -/
structure AnomalyRow where
  city_name : String
  country : String
  forecast_time : DateTime
  temperature : ℚ
  city_avg_temp : ℚ
  temp_anomaly : ℚ
deriving DecidableEq

/-- `calculate_temperature_anomalies`: every forecast row merged with its
city's mean temperature, with the anomaly column `temperature - city_avg_temp`
(transform.py lines 113-125; the many-to-one merge on `city_name` keeps every
forecast row in order). -/
def calculate_temperature_anomalies (tbl : List ForecastRecord) : List AnomalyRow :=
  tbl.map (fun r =>
    { city_name := r.city_name
      country := r.country
      forecast_time := r.forecast_time
      temperature := r.temperature
      city_avg_temp := cityMeanTemp tbl r.city_name
      temp_anomaly := r.temperature - cityMeanTemp tbl r.city_name })

/-- The GROUP BY key of `calculate_daily_aggregates`:
`(city_name, country, date(forecast_time))`. -/
def aggKey (r : ForecastRecord) : String × String × Int :=
  (r.city_name, r.country, r.forecast_time.date)

/-- The rows of one GROUP BY group. -/
def groupRows (tbl : List ForecastRecord) (k : String × String × Int) : List ForecastRecord :=
  tbl.filter (fun r => decide (aggKey r = k))

/-- SQL `min` over a group's values (groups are never empty). -/
def qMin : List ℚ → ℚ
  | [] => 0
  | x :: xs => xs.foldl min x

/-- SQL `max` over a group's values (groups are never empty). -/
def qMax : List ℚ → ℚ
  | [] => 0
  | x :: xs => xs.foldl max x

/-- One output row of `calculate_daily_aggregates` (the SELECT list of
transform.py lines 79-92). -/
structure DailyAggRow where
  city_name : String
  country : String
  date : Int
  avg_temp : ℚ
  min_temp : ℚ
  max_temp : ℚ
  avg_humidity : ℚ
  avg_wind_speed : ℚ
deriving DecidableEq

/-- The output row of `calculate_daily_aggregates` for one GROUP BY key:
the SELECT list's aggregates over that key's group. -/
def dailyRowOf (tbl : List ForecastRecord) (k : String × String × Int) : DailyAggRow :=
  let g := groupRows tbl k
  { city_name := k.1
    country := k.2.1
    date := k.2.2
    avg_temp := (g.map (fun r => r.temperature)).sum / g.length
    min_temp := qMin (g.map (fun r => r.temperature))
    max_temp := qMax (g.map (fun r => r.temperature))
    avg_humidity := (g.map (fun r => r.humidity)).sum / g.length
    avg_wind_speed := (g.map (fun r => r.wind_speed)).sum / g.length }

/-- `calculate_daily_aggregates`: one row per distinct
`(city_name, country, date(forecast_time))` key. -/
def calculate_daily_aggregates (tbl : List ForecastRecord) : List DailyAggRow :=
  ((tbl.map aggKey).dedup).map (dailyRowOf tbl)

/-- The database as `run_transformations` sees it: the forecast base table
plus the three derived tables; `none` models a table that does not exist yet
(`store_transformed_data` creates it, else appends). -/
structure TransformDB where
  forecast : List ForecastRecord
  daily_aggregates : Option (List DailyAggRow)
  temperature_anomalies : Option (List AnomalyRow)
  extreme_weather_events : Option (List (ForecastRecord × String))
deriving DecidableEq

/-- `store_transformed_data` (transform.py lines 177-199): create the table
from the frame when it does not exist, otherwise append the frame's rows. -/
def store_transformed_data {α : Type} (existing : Option (List α)) (df : List α) : Option (List α) :=
  match existing with
  | none => some df
  | some rows => some (rows ++ df)

/-- `run_transformations` (transform.py lines 201-228): store daily
aggregates, then anomalies, then extreme events — the last only when the
extreme-event frame is non-empty. -/
def run_transformations (db : TransformDB) : TransformDB :=
  let daily_agg := calculate_daily_aggregates db.forecast
  let db1 := { db with daily_aggregates := store_transformed_data db.daily_aggregates daily_agg }
  let temp_anomalies := calculate_temperature_anomalies db1.forecast
  let db2 := { db1 with temperature_anomalies := store_transformed_data db1.temperature_anomalies temp_anomalies }
  let extreme_events := find_extreme_weather_events db2.forecast
  if extreme_events.isEmpty then db2
  else { db2 with extreme_weather_events := store_transformed_data db2.extreme_weather_events extreme_events }

/-- Python exceptions that the embedded code can raise. -/
inductive PyExn where
  | jsonDecodeError
  | attributeError
  | typeError
  | indexError
  | interfaceError
deriving DecidableEq

/-- Decoded JSON values (what `json.load` returns on success). -/
inductive Json where
  | null
  | bool (b : Bool)
  | num (q : ℚ)
  | str (s : String)
  | arr (elems : List Json)
  | obj (fields : List (String × Json))

/-- Lookup of a string key in an association list (Python dict access by
first, hence unique, occurrence). -/
def dlookup {α : Type} (d : List (String × α)) (k : String) : Option α :=
  (d.find? (fun p => p.1 == k)).map (fun p => p.2)

/-- Python `d.get(k)`: `None` when the key is absent; raises AttributeError
when the receiver is not a dict. -/
def Json.get? : Json → String → Except PyExn Json
  | .obj fs, k => .ok ((dlookup fs k).getD .null)
  | _, _ => .error .attributeError

/-- Python `d.get(k, default)`. -/
def Json.getD : Json → String → Json → Except PyExn Json
  | .obj fs, k, d => .ok ((dlookup fs k).getD d)
  | _, _, _ => .error .attributeError

/-- Python `x[0]` as applied to `data.get('weather', [{}])[0]`: first element
of a list (IndexError when empty), first character of a string, TypeError
otherwise. -/
def Json.index0 : Json → Except PyExn Json
  | .arr (x :: _) => .ok x
  | .arr [] => .error .indexError
  | .str s =>
    match s.data with
    | c :: _ => .ok (.str (String.mk [c]))
    | [] => .error .indexError
  | _ => .error .typeError

/-- Python `for x in v`: lists iterate over elements, dicts over keys,
strings over characters; other values raise TypeError. -/
def pyIterate : Json → Except PyExn (List Json)
  | .arr xs => .ok xs
  | .obj fs => .ok (fs.map (fun p => .str p.1))
  | .str s => .ok (s.data.map (fun c => .str (String.mk [c])))
  | _ => .error .typeError

/-- `datetime.fromtimestamp`: accepts a number (a Python bool counts as an
int), raises TypeError on anything else. -/
def fromtimestamp : Json → Except PyExn DateTime
  | .num q => .ok (epochToDateTime q)
  | .bool b => .ok (epochToDateTime (if b then 1 else 0))
  | _ => .error .typeError

/-- A value as stored in an SQLite column. -/
inductive SQLVal where
  | null
  | num (q : ℚ)
  | text (s : String)
  | dt (t : DateTime)
deriving DecidableEq

/-- sqlite3 parameter binding: `None`, numbers and strings bind directly, a
bool binds as an integer, and a list or dict raises InterfaceError. -/
def toSQL : Json → Except PyExn SQLVal
  | .null => .ok .null
  | .bool b => .ok (.num (if b then 1 else 0))
  | .num q => .ok (.num q)
  | .str s => .ok (.text s)
  | .arr _ => .error .interfaceError
  | .obj _ => .error .interfaceError

/-- One row of the `current_weather` table (schema of load.py lines 26-52,
without the autoincrement id). -/
structure ObsRow where
  city_id : SQLVal
  city_name : SQLVal
  country : SQLVal
  latitude : SQLVal
  longitude : SQLVal
  weather_main : SQLVal
  weather_description : SQLVal
  temperature : SQLVal
  feels_like : SQLVal
  temp_min : SQLVal
  temp_max : SQLVal
  pressure : SQLVal
  humidity : SQLVal
  wind_speed : SQLVal
  wind_direction : SQLVal
  cloudiness : SQLVal
  rain_1h : SQLVal
  snow_1h : SQLVal
  timestamp : DateTime
  sunrise : DateTime
  sunset : DateTime
  retrieved_at : SQLVal
deriving DecidableEq

/-- One row of the `forecast` table (schema of load.py lines 55-77, without
the autoincrement id). -/
structure FcRow where
  city_id : SQLVal
  city_name : SQLVal
  country : SQLVal
  forecast_time : DateTime
  weather_main : SQLVal
  weather_description : SQLVal
  temperature : SQLVal
  feels_like : SQLVal
  temp_min : SQLVal
  temp_max : SQLVal
  pressure : SQLVal
  humidity : SQLVal
  wind_speed : SQLVal
  wind_direction : SQLVal
  cloudiness : SQLVal
  rain_3h : SQLVal
  snow_3h : SQLVal
  retrieved_at : SQLVal
deriving DecidableEq

/-- One row of the `raw_data_files` provenance table. -/
structure RawFileRow where
  file_path : String
  data_type : String
  city : SQLVal
  timestamp : DateTime
deriving DecidableEq

/-- The three base tables of the load-side database. -/
structure LoadDB where
  current_weather : List ObsRow
  forecast : List FcRow
  raw_data_files : List RawFileRow
deriving DecidableEq

/-- `data.get(block, {}).get(sub, 0)` — the precipitation accessors of
load.py lines 139-140 and 223-224: an absent block defaults to the empty
dict, an absent sub-field to the number 0. -/
def getPrecip (data : Json) (block sub : String) : Except PyExn Json := do
  let b ← data.getD block (.obj [])
  b.getD sub (.num 0)

/-- The values extracted from a decoded current-weather payload
(load.py lines 112-145). -/
structure CurrentFields where
  retrieved_at : Json
  city_id : Json
  city_name : Json
  country : Json
  latitude : Json
  longitude : Json
  weather_main : Json
  weather_description : Json
  temperature : Json
  feels_like : Json
  temp_min : Json
  temp_max : Json
  pressure : Json
  humidity : Json
  wind_speed : Json
  wind_direction : Json
  cloudiness : Json
  rain_1h : Json
  snow_1h : Json
  timestamp : DateTime
  sunrise : DateTime
  sunset : DateTime

/-- Field extraction of `load_current_weather`, in source order
(load.py lines 112-145); every step can raise, e.g. `.get` on a non-dict. -/
def parseCurrentFields (data : Json) : Except PyExn CurrentFields := do
  let retrieved_at ← data.get? "retrieved_at"
  let city_id ← data.get? "id"
  let city_name ← data.get? "name"
  let sys1 ← data.getD "sys" (.obj [])
  let country ← sys1.get? "country"
  let coord1 ← data.getD "coord" (.obj [])
  let latitude ← coord1.get? "lat"
  let coord2 ← data.getD "coord" (.obj [])
  let longitude ← coord2.get? "lon"
  let w1 ← data.getD "weather" (.arr [.obj []])
  let w1h ← w1.index0
  let weather_main ← w1h.get? "main"
  let w2 ← data.getD "weather" (.arr [.obj []])
  let w2h ← w2.index0
  let weather_description ← w2h.get? "description"
  let main1 ← data.getD "main" (.obj [])
  let temperature ← main1.get? "temp"
  let main2 ← data.getD "main" (.obj [])
  let feels_like ← main2.get? "feels_like"
  let main3 ← data.getD "main" (.obj [])
  let temp_min ← main3.get? "temp_min"
  let main4 ← data.getD "main" (.obj [])
  let temp_max ← main4.get? "temp_max"
  let main5 ← data.getD "main" (.obj [])
  let pressure ← main5.get? "pressure"
  let main6 ← data.getD "main" (.obj [])
  let humidity ← main6.get? "humidity"
  let wind1 ← data.getD "wind" (.obj [])
  let wind_speed ← wind1.get? "speed"
  let wind2 ← data.getD "wind" (.obj [])
  let wind_direction ← wind2.get? "deg"
  let clouds ← data.getD "clouds" (.obj [])
  let cloudiness ← clouds.get? "all"
  let rain_1h ← getPrecip data "rain" "1h"
  let snow_1h ← getPrecip data "snow" "1h"
  let dtv ← data.getD "dt" (.num 0)
  let timestamp ← fromtimestamp dtv
  let sys2 ← data.getD "sys" (.obj [])
  let srv ← sys2.getD "sunrise" (.num 0)
  let sunrise ← fromtimestamp srv
  let sys3 ← data.getD "sys" (.obj [])
  let ssv ← sys3.getD "sunset" (.num 0)
  let sunset ← fromtimestamp ssv
  .ok ⟨retrieved_at, city_id, city_name, country, latitude, longitude,
    weather_main, weather_description, temperature, feels_like, temp_min,
    temp_max, pressure, humidity, wind_speed, wind_direction, cloudiness,
    rain_1h, snow_1h, timestamp, sunrise, sunset⟩

/-- Parameter binding of the `INSERT INTO current_weather` statement
(load.py lines 148-162): each extracted value is bound as an SQLite value. -/
def bindObsRow (f : CurrentFields) : Except PyExn ObsRow := do
  let city_id ← toSQL f.city_id
  let city_name ← toSQL f.city_name
  let country ← toSQL f.country
  let latitude ← toSQL f.latitude
  let longitude ← toSQL f.longitude
  let weather_main ← toSQL f.weather_main
  let weather_description ← toSQL f.weather_description
  let temperature ← toSQL f.temperature
  let feels_like ← toSQL f.feels_like
  let temp_min ← toSQL f.temp_min
  let temp_max ← toSQL f.temp_max
  let pressure ← toSQL f.pressure
  let humidity ← toSQL f.humidity
  let wind_speed ← toSQL f.wind_speed
  let wind_direction ← toSQL f.wind_direction
  let cloudiness ← toSQL f.cloudiness
  let rain_1h ← toSQL f.rain_1h
  let snow_1h ← toSQL f.snow_1h
  let retrieved_at ← toSQL f.retrieved_at
  .ok ⟨city_id, city_name, country, latitude, longitude, weather_main,
    weather_description, temperature, feels_like, temp_min, temp_max,
    pressure, humidity, wind_speed, wind_direction, cloudiness, rain_1h,
    snow_1h, f.timestamp, f.sunrise, f.sunset, retrieved_at⟩

/-- Body of the `try` block of `load_current_weather` (load.py lines
111-171): extract the fields, insert one `current_weather` row, insert one
`raw_data_files` row, commit (the returned state is the committed one). -/
def tryLoadCurrent (data : Json) (file_path : String) (now : DateTime) (db : LoadDB) :
    Except PyExn LoadDB := do
  let f ← parseCurrentFields data
  let row ← bindObsRow f
  let db1 : LoadDB := { db with current_weather := db.current_weather ++ [row] }
  let city ← toSQL f.city_name
  .ok { db1 with raw_data_files := db1.raw_data_files ++ [⟨file_path, "current", city, now⟩] }

/-- `load_current_weather` (load.py lines 95-177). `content` is the result
of `json.load`: `none` when the file's text is not valid JSON — that call
sits BEFORE the `try` block, so the decode error propagates out of the
function. An exception inside the `try` block is caught: the transaction is
rolled back (the database keeps its prior state), the error is logged, and
the function returns normally. -/
def load_current_weather (content : Option Json) (file_path : String) (now : DateTime)
    (db : LoadDB) : Except PyExn LoadDB :=
  match content with
  | none => .error .jsonDecodeError
  | some data =>
    match tryLoadCurrent data file_path now db with
    | .ok db1 => .ok db1
    | .error _ => .ok db

/-- The values extracted from one entry of a forecast payload's `list`
(load.py lines 202-224). -/
structure ForecastFields where
  forecast_time : DateTime
  weather_main : Json
  weather_description : Json
  temperature : Json
  feels_like : Json
  temp_min : Json
  temp_max : Json
  pressure : Json
  humidity : Json
  wind_speed : Json
  wind_direction : Json
  cloudiness : Json
  rain_3h : Json
  snow_3h : Json

/-- Field extraction for one forecast list entry, in source order
(load.py lines 202-224). -/
def parseForecastEntry (fc : Json) : Except PyExn ForecastFields := do
  let dtv ← fc.getD "dt" (.num 0)
  let forecast_time ← fromtimestamp dtv
  let w1 ← fc.getD "weather" (.arr [.obj []])
  let w1h ← w1.index0
  let weather_main ← w1h.get? "main"
  let w2 ← fc.getD "weather" (.arr [.obj []])
  let w2h ← w2.index0
  let weather_description ← w2h.get? "description"
  let main1 ← fc.getD "main" (.obj [])
  let temperature ← main1.get? "temp"
  let main2 ← fc.getD "main" (.obj [])
  let feels_like ← main2.get? "feels_like"
  let main3 ← fc.getD "main" (.obj [])
  let temp_min ← main3.get? "temp_min"
  let main4 ← fc.getD "main" (.obj [])
  let temp_max ← main4.get? "temp_max"
  let main5 ← fc.getD "main" (.obj [])
  let pressure ← main5.get? "pressure"
  let main6 ← fc.getD "main" (.obj [])
  let humidity ← main6.get? "humidity"
  let wind1 ← fc.getD "wind" (.obj [])
  let wind_speed ← wind1.get? "speed"
  let wind2 ← fc.getD "wind" (.obj [])
  let wind_direction ← wind2.get? "deg"
  let clouds ← fc.getD "clouds" (.obj [])
  let cloudiness ← clouds.get? "all"
  let rain_3h ← getPrecip fc "rain" "3h"
  let snow_3h ← getPrecip fc "snow" "3h"
  .ok ⟨forecast_time, weather_main, weather_description, temperature,
    feels_like, temp_min, temp_max, pressure, humidity, wind_speed,
    wind_direction, cloudiness, rain_3h, snow_3h⟩

/-- Parameter binding of the `INSERT INTO forecast` statement
(load.py lines 227-239). -/
def bindFcRow (city_id city_name country retrieved_at : Json) (f : ForecastFields) :
    Except PyExn FcRow := do
  let cid ← toSQL city_id
  let cname ← toSQL city_name
  let cc ← toSQL country
  let weather_main ← toSQL f.weather_main
  let weather_description ← toSQL f.weather_description
  let temperature ← toSQL f.temperature
  let feels_like ← toSQL f.feels_like
  let temp_min ← toSQL f.temp_min
  let temp_max ← toSQL f.temp_max
  let pressure ← toSQL f.pressure
  let humidity ← toSQL f.humidity
  let wind_speed ← toSQL f.wind_speed
  let wind_direction ← toSQL f.wind_direction
  let cloudiness ← toSQL f.cloudiness
  let rain_3h ← toSQL f.rain_3h
  let snow_3h ← toSQL f.snow_3h
  let ra ← toSQL retrieved_at
  .ok ⟨cid, cname, cc, f.forecast_time, weather_main, weather_description,
    temperature, feels_like, temp_min, temp_max, pressure, humidity,
    wind_speed, wind_direction, cloudiness, rain_3h, snow_3h, ra⟩

/-- Body of the `try` block of `load_forecast_data` (load.py lines 194-248):
extract the city header, insert one `forecast` row per list entry, insert
one `raw_data_files` row, commit. -/
def tryLoadForecast (data : Json) (file_path : String) (now : DateTime) (db : LoadDB) :
    Except PyExn LoadDB := do
  let retrieved_at ← data.get? "retrieved_at"
  let city_data ← data.getD "city" (.obj [])
  let city_id ← city_data.get? "id"
  let city_name ← city_data.get? "name"
  let country ← city_data.get? "country"
  let lst ← data.getD "list" (.arr [])
  let items ← pyIterate lst
  let db1 ← items.foldlM (fun (acc : LoadDB) fc => do
    let f ← parseForecastEntry fc
    let row ← bindFcRow city_id city_name country retrieved_at f
    .ok { acc with forecast := acc.forecast ++ [row] }) db
  let city ← toSQL city_name
  .ok { db1 with raw_data_files := db1.raw_data_files ++ [⟨file_path, "forecast", city, now⟩] }

/-- `load_forecast_data` (load.py lines 179-254), with the same
`json.load`-before-`try` structure as `load_current_weather`. -/
def load_forecast_data (content : Option Json) (file_path : String) (now : DateTime)
    (db : LoadDB) : Except PyExn LoadDB :=
  match content with
  | none => .error .jsonDecodeError
  | some data =>
    match tryLoadForecast data file_path now db with
    | .ok db1 => .ok db1
    | .error _ => .ok db

/-- A raw artifact handed to the loader: its file path and the outcome of
`json.load` on its text (`none`: the text is not valid JSON). -/
structure Artifact where
  path : String
  content : Option Json

/-- `load_data_files` (load.py lines 256-274): load every current-weather
artifact, then every forecast artifact, in order. An uncaught exception from
a loader aborts the remaining batch. -/
def load_data_files (currents forecasts : List Artifact) (now : DateTime) (db : LoadDB) :
    Except PyExn LoadDB := do
  let db1 ← currents.foldlM (fun acc a => load_current_weather a.content a.path now acc) db
  forecasts.foldlM (fun acc a => load_forecast_data a.content a.path now acc) db1

/-- Python dict assignment `d[k] = v`: an existing key keeps its position and
gets the new value, a new key is appended. -/
def dictSet {α : Type} : List (String × α) → String → α → List (String × α)
  | [], k, v => [(k, v)]
  | p :: rest, k, v => if p.1 == k then (k, v) :: rest else p :: dictSet rest k v

/-- The weather provider as the Source Client sees it: for each request kind,
a map from city to the decoded response body, where `none` stands for any
`requests.exceptions.RequestException` (network error, non-2xx status after
`raise_for_status`, malformed body). -/
structure Transport where
  current : String → Option Json
  forecast : String → Option Json

/-- `get_current_weather` (extract.py lines 28-58): a transport failure is
caught and reported as `None`; on success the body gets a `retrieved_at` key
added. A body that is valid JSON but not an object makes
`data['retrieved_at'] = ...` raise a TypeError, which is not caught. -/
def get_current_weather (transport : String → Option Json) (retrievedAt : String)
    (city : String) : Except PyExn (Option Json) :=
  match transport city with
  | none => .ok none
  | some (.obj fs) => .ok (some (.obj (dictSet fs "retrieved_at" (.str retrievedAt))))
  | some _ => .error .typeError

/-- `get_forecast` (extract.py lines 60-89): same behaviour as
`get_current_weather` against the forecast endpoint. -/
def get_forecast (transport : String → Option Json) (retrievedAt : String)
    (city : String) : Except PyExn (Option Json) :=
  match transport city with
  | none => .ok none
  | some (.obj fs) => .ok (some (.obj (dictSet fs "retrieved_at" (.str retrievedAt))))
  | some _ => .error .typeError

/-- City-name sanitization of `save_raw_data` (extract.py line 104): strip
the country suffix, lowercase, spaces to underscores. -/
def sanitizeCity (city : String) : String :=
  (((city.splitOn ",").headD city).toLower).replace " " "_"

/-- The artifact path produced by `save_raw_data` (extract.py lines 104-112);
`ts` is the formatted fetch timestamp. -/
def save_raw_data_path (data_type city ts : String) : String :=
  "raw_data/" ++ data_type ++ "_" ++ sanitizeCity city ++ "_" ++ ts ++ ".json"

/-- The `results` dictionary of `extract_weather_data`: per kind, the map
from city to saved artifact path. -/
structure ExtractResults where
  current : List (String × String)
  forecast : List (String × String)
deriving DecidableEq

/-- One iteration of the city loop of `extract_weather_data` (extract.py
lines 130-141): fetch the current observation and, when it is truthy, record
its saved path; then the same for the forecast. -/
def extractStep (t : Transport) (retrievedAt ts : String) (res : ExtractResults)
    (city : String) : Except PyExn ExtractResults := do
  let current_data ← get_current_weather t.current retrievedAt city
  let res1 := match current_data with
    | some _ => { res with current := dictSet res.current city (save_raw_data_path "current" city ts) }
    | none => res
  let forecast_data ← get_forecast t.forecast retrievedAt city
  match forecast_data with
  | some _ => .ok { res1 with forecast := dictSet res1.forecast city (save_raw_data_path "forecast" city ts) }
  | none => .ok res1

/-- `extract_weather_data` (extract.py lines 114-143): the city loop over an
initially empty results dictionary. -/
def extract_weather_data (t : Transport) (retrievedAt ts : String) (cities : List String) :
    Except PyExn ExtractResults :=
  cities.foldlM (extractStep t retrievedAt ts) ⟨[], []⟩

/-- A transport whose every delivered body is a JSON object — the shape the
provider's documented schema guarantees. -/
def objOnly (f : String → Option Json) : Prop :=
  ∀ c b, f c = some b → ∃ fs, b = Json.obj fs

/-! ### Concrete inputs used by witnesses and counterexamples -/

/-- A forecast record sitting exactly on the cold boundary. -/
def boundaryRec : ForecastRecord := { city_name := "Testville", temperature := -10 }

/-- A forecast record just past the cold boundary. -/
def coldRec : ForecastRecord := { city_name := "Testville", temperature := mkRat (-101) 10 }

/-- A mild forecast record (no extreme predicate matches). -/
def mildRec : ForecastRecord :=
  { city_name := "Testville", country := "TV", temperature := 12, humidity := 60, wind_speed := 4 }

/-- A second mild record for the same city, different country and date. -/
def mildRec2 : ForecastRecord :=
  { city_name := "Testville", country := "XY", forecast_time := ⟨1, 0⟩, temperature := 14,
    humidity := 50, wind_speed := 6 }

/-- The time-of-load value used in concrete runs. -/
def now0 : DateTime := ⟨0, 0⟩

/-- An empty load-side database. -/
def emptyDB : LoadDB := ⟨[], [], []⟩

/-- A raw artifact whose file text is not valid JSON. -/
def badArtifact : Artifact := ⟨"raw_data/current_badville_20240101_000000.json", none⟩

/-- Absence of an optional precipitation value in a decoded JSON object: the
whole block is missing, or the block is present without the sub-field. -/
def blockAbsent (fs : List (String × Json)) (block sub : String) : Prop :=
  dlookup fs block = none ∨
  ∃ gs, dlookup fs block = some (.obj gs) ∧ dlookup gs sub = none

/-- The key-value pairs of a well-formed current-weather payload with no
`rain` and no `snow` block. -/
def samplePayloadFields : List (String × Json) := [
  ("coord", .obj [("lon", .num (mkRat (-13) 100)), ("lat", .num (mkRat 5151 100))]),
  ("weather", .arr [.obj [("main", .str "Clear"), ("description", .str "clear sky")]]),
  ("main", .obj [("temp", .num (mkRat 123 10)), ("feels_like", .num (mkRat 112 10)),
    ("temp_min", .num 10), ("temp_max", .num 14), ("pressure", .num 1012),
    ("humidity", .num 60)]),
  ("wind", .obj [("speed", .num (mkRat 41 10)), ("deg", .num 80)]),
  ("clouds", .obj [("all", .num 0)]),
  ("dt", .num 1700000000),
  ("sys", .obj [("country", .str "GB"), ("sunrise", .num 1699999000), ("sunset", .num 1700030000)]),
  ("id", .num 2643743),
  ("name", .str "London"),
  ("retrieved_at", .str "2023-11-14T22:13:20")]

/-- A well-formed current-weather payload with no `rain` and no `snow`
block. -/
def samplePayload : Json := .obj samplePayloadFields

/-- The artifact holding `samplePayload`. -/
def sampleArtifact : Artifact := ⟨"raw_data/current_london_20231114_221320.json", some samplePayload⟩

/-- The database state after one successful load of `sampleArtifact`. -/
def sampleLoadedDB : LoadDB :=
  ((tryLoadCurrent samplePayload sampleArtifact.path now0 emptyDB).toOption).getD emptyDB

/-- The database state after loading `sampleArtifact` a second time. -/
def sampleLoadedDB2 : LoadDB :=
  ((load_current_weather (some samplePayload) sampleArtifact.path now0 sampleLoadedDB).toOption).getD emptyDB

/-- A transform-side database whose only forecast record sits exactly on the
cold boundary (so nothing is extreme) and whose derived tables do not exist
yet. -/
def sampleTransformDB : TransformDB := ⟨[boundaryRec], none, none, none⟩

/-- A well-formed one-entry forecast payload with no `rain` and no `snow`
block in its entry. -/
def sampleForecastPayload : Json := .obj [
  ("city", .obj [("id", .num 2643743), ("name", .str "London"), ("country", .str "GB")]),
  ("list", .arr [.obj [
    ("dt", .num 1700006400),
    ("weather", .arr [.obj [("main", .str "Clouds"), ("description", .str "few clouds")]]),
    ("main", .obj [("temp", .num (mkRat 101 10)), ("feels_like", .num (mkRat 95 10)),
      ("temp_min", .num 9), ("temp_max", .num 11), ("pressure", .num 1010),
      ("humidity", .num 70)]),
    ("wind", .obj [("speed", .num 3), ("deg", .num 120)]),
    ("clouds", .obj [("all", .num 20)])]]),
  ("retrieved_at", .str "2023-11-14T22:13:21")]

/-- A payload that is valid JSON but whose field extraction raises inside the
`try` block (`(3).get` raises AttributeError). -/
def scalarPayload : Json := .num 3

/-- A two-city transport where the first city's current fetch fails and
everything else succeeds with object bodies. -/
def sampleTransport : Transport :=
  { current := fun c => if c == "Badville,bv" then none else some (.obj [("name", .str c)])
    forecast := fun c => some (.obj [("name", .str c)]) }

/-- Placeholder anomaly row for `headD`. -/
def emptyAnomalyRow : AnomalyRow := ⟨"", "", ⟨0, 0⟩, 0, 0, 0⟩

/-- The anomaly row emitted for `mildRec` in the two-record table. -/
def anomalyRowA : AnomalyRow :=
  (calculate_temperature_anomalies [mildRec, mildRec2]).headD emptyAnomalyRow

/-- The anomaly row emitted for `mildRec2` in the two-record table. -/
def anomalyRowB : AnomalyRow :=
  (calculate_temperature_anomalies [mildRec, mildRec2]).getLastD emptyAnomalyRow

/-- The anomaly row emitted for `mildRec` in the one-record table. -/
def anomalyRowC : AnomalyRow :=
  (calculate_temperature_anomalies [mildRec]).headD emptyAnomalyRow

/-! ## Helper lemmas -/

/-- The per-row description loop produces exactly the spec's clause list:
one clause per matching predicate in the fixed order. -/
theorem eventDescription_eq_spec (r : ForecastRecord) :
    eventDescription r = specDescription r := by
  unfold eventDescription eventClauses specDescription specClauseTable
  by_cases h1 : r.temperature < -10 <;> by_cases h2 : r.temperature > 40 <;>
    by_cases h3 : r.wind_speed > 20 <;> by_cases h4 : r.rain_3h > 10 <;>
    by_cases h5 : r.snow_3h > 10 <;>
    simp [h1, h2, h3, h4, h5]

/-- The city mean is unchanged when every record's country is rewritten:
the grouping key is the city name alone. -/
theorem cityMeanTemp_map_country (tbl : List ForecastRecord) (g : ForecastRecord → String)
    (c : String) :
    cityMeanTemp (tbl.map fun r => { r with country := g r }) c = cityMeanTemp tbl c := by
  simp only [cityMeanTemp, List.filter_map, List.map_map]
  rw [show ((fun r : ForecastRecord => r.city_name == c) ∘ fun r => { r with country := g r })
      = (fun r : ForecastRecord => r.city_name == c) from funext fun r => rfl]
  rw [show ((fun r : ForecastRecord => r.temperature) ∘ fun r => { r with country := g r })
      = (fun r : ForecastRecord => r.temperature) from funext fun r => rfl]

/-- A successful run of the current-weather try block decomposes into field
extraction, row binding, city binding, and the two inserts. -/
theorem tryLoadCurrent_ok {data : Json} {p : String} {now : DateTime} {db db1 : LoadDB}
    (h : tryLoadCurrent data p now db = .ok db1) :
    ∃ f row city, parseCurrentFields data = .ok f ∧ bindObsRow f = .ok row ∧
      toSQL f.city_name = .ok city ∧
      db1.current_weather = db.current_weather ++ [row] ∧
      db1.forecast = db.forecast ∧
      db1.raw_data_files = db.raw_data_files ++ [⟨p, "current", city, now⟩] := by
  simp only [tryLoadCurrent, bind, Except.bind] at h
  repeat' split at h
  all_goals first
    | (cases h; exact ⟨_, _, _, by assumption, by assumption, by assumption, rfl, rfl, rfl⟩)
    | (cases h)

/-- Successful field extraction determines the precipitation fields as the
values of the two-level default lookup. -/
theorem parseCurrentFields_precip {data : Json} {f : CurrentFields}
    (h : parseCurrentFields data = .ok f) :
    getPrecip data "rain" "1h" = .ok f.rain_1h ∧ getPrecip data "snow" "1h" = .ok f.snow_1h := by
  simp only [parseCurrentFields, bind, Except.bind] at h
  repeat' split at h
  all_goals first
    | (cases h; exact ⟨by assumption, by assumption⟩)
    | (cases h)

/-- Successful row binding stores the bound precipitation values. -/
theorem bindObsRow_precip {f : CurrentFields} {row : ObsRow}
    (h : bindObsRow f = .ok row) :
    toSQL f.rain_1h = .ok row.rain_1h ∧ toSQL f.snow_1h = .ok row.snow_1h := by
  simp only [bindObsRow, bind, Except.bind] at h
  repeat' split at h
  all_goals first
    | (cases h; exact ⟨by assumption, by assumption⟩)
    | (cases h)

/-- Forecast-entry analogue of `parseCurrentFields_precip`. -/
theorem parseForecastEntry_precip {fc : Json} {f : ForecastFields}
    (h : parseForecastEntry fc = .ok f) :
    getPrecip fc "rain" "3h" = .ok f.rain_3h ∧ getPrecip fc "snow" "3h" = .ok f.snow_3h := by
  simp only [parseForecastEntry, bind, Except.bind] at h
  repeat' split at h
  all_goals first
    | (cases h; exact ⟨by assumption, by assumption⟩)
    | (cases h)

/-- Forecast-row analogue of `bindObsRow_precip`. -/
theorem bindFcRow_precip {cid cname cc ra : Json} {f : ForecastFields} {row : FcRow}
    (h : bindFcRow cid cname cc ra f = .ok row) :
    toSQL f.rain_3h = .ok row.rain_3h ∧ toSQL f.snow_3h = .ok row.snow_3h := by
  simp only [bindFcRow, bind, Except.bind] at h
  repeat' split at h
  all_goals first
    | (cases h; exact ⟨by assumption, by assumption⟩)
    | (cases h)

/-- An absent precipitation block (or absent sub-field) makes the default
lookup come out as the number 0. -/
theorem getPrecip_absent {fs : List (String × Json)} {block sub : String}
    (h : blockAbsent fs block sub) :
    getPrecip (.obj fs) block sub = .ok (.num 0) := by
  rcases h with h | ⟨gs, h1, h2⟩
  · have h0 : Json.getD (.obj fs) block (.obj []) = .ok (.obj []) := by
      simp [Json.getD, h]
    simp only [getPrecip, bind, Except.bind, h0]
    rfl
  · have h0 : Json.getD (.obj fs) block (.obj []) = .ok (.obj gs) := by
      simp [Json.getD, h1]
    have h3 : Json.getD (.obj gs) sub (.num 0) = .ok (.num 0) := by
      simp [Json.getD, h2]
    simp only [getPrecip, bind, Except.bind, h0, h3]

/-- The try-block outcome on a fixed payload is insensitive to the database
it starts from: the same row and provenance record get appended. -/
theorem tryLoadCurrent_shift {data : Json} {f : CurrentFields} {row : ObsRow} {city : SQLVal}
    (hf : parseCurrentFields data = .ok f) (hrow : bindObsRow f = .ok row)
    (hcity : toSQL f.city_name = .ok city) (p : String) (now : DateTime) (db2 : LoadDB) :
    tryLoadCurrent data p now db2 = .ok
      { db2 with current_weather := db2.current_weather ++ [row]
                 raw_data_files := db2.raw_data_files ++ [⟨p, "current", city, now⟩] } := by
  simp [tryLoadCurrent, bind, Except.bind, hf, hrow, hcity]

/-- `load_current_weather` on decodable content never raises. -/
theorem load_current_some_ok (data : Json) (p : String) (now : DateTime) (db : LoadDB) :
    ∃ db1, load_current_weather (some data) p now db = .ok db1 := by
  cases h : tryLoadCurrent data p now db with
  | ok db1 => exact ⟨db1, by simp [load_current_weather, h]⟩
  | error e => exact ⟨db, by simp [load_current_weather, h]⟩

/-- `load_forecast_data` on decodable content never raises. -/
theorem load_forecast_some_ok (data : Json) (p : String) (now : DateTime) (db : LoadDB) :
    ∃ db1, load_forecast_data (some data) p now db = .ok db1 := by
  cases h : tryLoadForecast data p now db with
  | ok db1 => exact ⟨db1, by simp [load_forecast_data, h]⟩
  | error e => exact ⟨db, by simp [load_forecast_data, h]⟩

/-- A fold of a per-artifact step that never raises on decodable artifacts
never raises over a batch of decodable artifacts. -/
theorem load_fold_ok (step : LoadDB → Artifact → Except PyExn LoadDB)
    (hstep : ∀ db a, a.content.isSome → ∃ db1, step db a = .ok db1) :
    ∀ (arts : List Artifact) (db : LoadDB), (∀ a ∈ arts, a.content.isSome) →
      ∃ db1, arts.foldlM step db = .ok db1 := by
  intro arts
  induction arts with
  | nil => intro db _; exact ⟨db, rfl⟩
  | cons a rest ih =>
    intro db hall
    obtain ⟨db1, h1⟩ := hstep db a (hall a (by simp))
    obtain ⟨db2, h2⟩ := ih db1 (fun x hx => hall x (by simp [hx]))
    exact ⟨db2, by rw [List.foldlM_cons, h1]; simpa using h2⟩

/-- Lookup in a cons cell of the association list. -/
theorem dlookup_cons {α : Type} (q : String × α) (l : List (String × α)) (y : String) :
    dlookup (q :: l) y = if q.1 == y then some q.2 else dlookup l y := by
  by_cases h : (q.1 == y) = true
  · simp [dlookup, List.find?_cons_of_pos _ h, h]
  · simp [dlookup, List.find?_cons_of_neg _ h, h]

/-- Dict assignment updates exactly the assigned key. -/
theorem dlookup_dictSet {α : Type} (d : List (String × α)) (k : String) (v : α) (x : String) :
    dlookup (dictSet d k v) x = if x = k then some v else dlookup d x := by
  induction d with
  | nil =>
    by_cases h : x = k
    · simp [dictSet, dlookup_cons, h]
    · have hk : (k == x) = false := beq_eq_false_iff_ne.mpr (fun hh => h hh.symm)
      simp [dictSet, dlookup_cons, dlookup, List.find?, h, hk]
  | cons p rest ih =>
    by_cases hpk : p.1 = k
    · by_cases hx : x = k
      · simp [dictSet, hpk, dlookup_cons, hx]
      · have hkx : ¬(k = x) := fun hh => hx hh.symm
        simp [dictSet, hpk, dlookup_cons, hx, hkx]
    · by_cases hx : x = k
      · subst hx
        simp [dictSet, hpk, dlookup_cons, ih]
      · simp [dictSet, hpk, dlookup_cons, ih, hx]

/-- One loop iteration of the extractor, characterized: each kind's entry is
written exactly when the corresponding fetch delivered a (truthy) body. -/
theorem extractStep_ok (t : Transport) (ra ts : String) (res : ExtractResults) (city : String)
    (hc : objOnly t.current) (hf : objOnly t.forecast) :
    extractStep t ra ts res city = .ok
      { current := if (t.current city).isSome then
            dictSet res.current city (save_raw_data_path "current" city ts) else res.current
        forecast := if (t.forecast city).isSome then
            dictSet res.forecast city (save_raw_data_path "forecast" city ts) else res.forecast } := by
  cases hcur : t.current city with
  | none =>
    cases hfc : t.forecast city with
    | none => simp [extractStep, get_current_weather, get_forecast, hcur, hfc, bind, Except.bind]
    | some b =>
      obtain ⟨fs, rfl⟩ := hf city b hfc
      simp [extractStep, get_current_weather, get_forecast, hcur, hfc, bind, Except.bind]
  | some b =>
    obtain ⟨fs, rfl⟩ := hc city b hcur
    cases hfc : t.forecast city with
    | none => simp [extractStep, get_current_weather, get_forecast, hcur, hfc, bind, Except.bind]
    | some b2 =>
      obtain ⟨gs, rfl⟩ := hf city b2 hfc
      simp [extractStep, get_current_weather, get_forecast, hcur, hfc, bind, Except.bind]

/-- The extractor's city loop, characterized: it never raises, and the final
results map has an entry for a (city, kind) exactly when the fetch for it
succeeded, independently of the other cities' outcomes. -/
theorem extract_fold_char (t : Transport) (ra ts : String)
    (hc : objOnly t.current) (hf : objOnly t.forecast) :
    ∀ (cities : List String) (res0 : ExtractResults),
      ∃ res, cities.foldlM (extractStep t ra ts) res0 = .ok res ∧
        (∀ c, dlookup res.current c =
          if c ∈ cities ∧ (t.current c).isSome = true
          then some (save_raw_data_path "current" c ts) else dlookup res0.current c) ∧
        (∀ c, dlookup res.forecast c =
          if c ∈ cities ∧ (t.forecast c).isSome = true
          then some (save_raw_data_path "forecast" c ts) else dlookup res0.forecast c) := by
  intro cities
  induction cities with
  | nil => intro res0; exact ⟨res0, rfl, by simp, by simp⟩
  | cons city cs ih =>
    intro res0
    set res1 : ExtractResults :=
      { current := if (t.current city).isSome then
            dictSet res0.current city (save_raw_data_path "current" city ts) else res0.current
        forecast := if (t.forecast city).isSome then
            dictSet res0.forecast city (save_raw_data_path "forecast" city ts) else res0.forecast }
      with hres1
    obtain ⟨res, hfold, hcur, hfc⟩ := ih res1
    refine ⟨res, ?_, ?_, ?_⟩
    · rw [List.foldlM_cons, extractStep_ok t ra ts res0 city hc hf, ← hres1]
      simpa using hfold
    · intro c
      rw [hcur c]
      by_cases hcc : c = city
      · subst hcc
        by_cases hsome : (t.current c).isSome = true
        · by_cases hmem : c ∈ cs <;> simp [hmem, hsome, hres1, dlookup_dictSet]
        · simp [hsome, hres1]
      · have hstep : dlookup res1.current c = dlookup res0.current c := by
          by_cases hsome : (t.current city).isSome = true <;>
            simp [hres1, hsome, dlookup_dictSet, hcc]
        rw [hstep]
        simp [List.mem_cons, hcc]
    · intro c
      rw [hfc c]
      by_cases hcc : c = city
      · subst hcc
        by_cases hsome : (t.forecast c).isSome = true
        · by_cases hmem : c ∈ cs <;> simp [hmem, hsome, hres1, dlookup_dictSet]
        · simp [hsome, hres1]
      · have hstep : dlookup res1.forecast c = dlookup res0.forecast c := by
          by_cases hsome : (t.forecast city).isSome = true <;>
            simp [hres1, hsome, dlookup_dictSet, hcc]
        rw [hstep]
        simp [List.mem_cons, hcc]

/-! ## Claim theorems -/

/-- Claim C1, counterexample: an artifact whose content fails to parse as
JSON does NOT roll back and return normally — `json.load` runs before the
`try` block, so the exception propagates out of `load_current_weather` and
aborts the whole `load_data_files` batch (the well-formed second artifact is
never loaded). -/
theorem json_decode_failure_aborts_batch :
    badArtifact.content = none ∧
    load_current_weather badArtifact.content badArtifact.path now0 emptyDB =
      .error .jsonDecodeError ∧
    load_data_files [badArtifact, sampleArtifact] [] now0 emptyDB =
      .error .jsonDecodeError :=
  ⟨rfl, rfl, rfl⟩

/-- Claim C1, amended: for every artifact whose content decodes as JSON but
whose field extraction or row insertion raises, `load_current_weather` and
`load_forecast_data` roll the transaction back (the database keeps its prior
state) and return normally, and `load_data_files` over decodable artifacts
never aborts; an artifact whose content is not valid JSON, however, raises
before the `try` block and aborts the batch (see the counterexample). -/
theorem try_block_failure_rolls_back_and_batch_continues :
    (∀ (data : Json) (p : String) (now : DateTime) (db : LoadDB) (e : PyExn),
        tryLoadCurrent data p now db = .error e →
        load_current_weather (some data) p now db = .ok db) ∧
    (∀ (data : Json) (p : String) (now : DateTime) (db : LoadDB) (e : PyExn),
        tryLoadForecast data p now db = .error e →
        load_forecast_data (some data) p now db = .ok db) ∧
    (∀ (currents forecasts : List Artifact) (now : DateTime) (db : LoadDB),
        (∀ a ∈ currents, a.content.isSome) → (∀ a ∈ forecasts, a.content.isSome) →
        ∃ db1, load_data_files currents forecasts now db = .ok db1) := by
  refine ⟨?_, ?_, ?_⟩
  · intro data p now db e h
    simp [load_current_weather, h]
  · intro data p now db e h
    simp [load_forecast_data, h]
  · intro currents forecasts now db h1 h2
    obtain ⟨db1, hd1⟩ := load_fold_ok
      (fun acc a => load_current_weather a.content a.path now acc)
      (fun db a ha => by
        cases hca : a.content with
        | none => simp [hca] at ha
        | some data => simp only [hca]; exact load_current_some_ok data a.path now db)
      currents db h1
    obtain ⟨db2, hd2⟩ := load_fold_ok
      (fun acc a => load_forecast_data a.content a.path now acc)
      (fun db a ha => by
        cases hca : a.content with
        | none => simp [hca] at ha
        | some data => simp only [hca]; exact load_forecast_some_ok data a.path now db)
      forecasts db1 h2
    exact ⟨db2, by simp [load_data_files, bind, Except.bind, hd1, hd2]⟩

/-- Claim C1, witness: a payload that is valid JSON but a bare number makes
the field extraction raise inside the `try` block; both loaders catch it,
leave the database unchanged and return normally, and a batch of decodable
artifacts goes through. -/
theorem try_block_failure_witness :
    load_current_weather (some scalarPayload) "raw_data/current_s.json" now0 emptyDB =
      .ok emptyDB ∧
    load_forecast_data (some scalarPayload) "raw_data/forecast_s.json" now0 emptyDB =
      .ok emptyDB ∧
    ∃ db1, load_data_files [sampleArtifact] [] now0 emptyDB = .ok db1 :=
  ⟨try_block_failure_rolls_back_and_batch_continues.1 scalarPayload
      "raw_data/current_s.json" now0 emptyDB .attributeError rfl,
   try_block_failure_rolls_back_and_batch_continues.2.1 scalarPayload
      "raw_data/forecast_s.json" now0 emptyDB .attributeError rfl,
   try_block_failure_rolls_back_and_batch_continues.2.2 [sampleArtifact] [] now0 emptyDB
      (by simp [sampleArtifact]) (by simp)⟩

/-- Claim C2: a forecast record is flagged extreme exactly when one of the
five strict comparisons holds; on the boundary, temperature exactly −10 is
not flagged, while −10.1 is flagged with description "Extreme cold: -10.1°C". -/
theorem extreme_flag_iff_strict_thresholds :
    (∀ (tbl : List ForecastRecord) (r : ForecastRecord), r ∈ tbl →
      ((∃ d, (r, d) ∈ find_extreme_weather_events tbl) ↔
        (r.temperature < -10 ∨ r.temperature > 40 ∨ r.wind_speed > 20 ∨
          r.rain_3h > 10 ∨ r.snow_3h > 10))) ∧
    find_extreme_weather_events [boundaryRec] = [] ∧
    find_extreme_weather_events [coldRec] = [(coldRec, "Extreme cold: -10.1°C")] := by
  refine ⟨?_, by decide, by decide⟩
  intro tbl r hr
  simp only [find_extreme_weather_events, List.mem_filter, List.mem_map, isExtreme, hr,
    Prod.ext_iff]
  constructor
  · rintro ⟨d, a, ⟨ha, hx⟩, rfl, hd⟩
    simp only [Bool.or_eq_true, decide_eq_true_eq] at hx
    tauto
  · intro hx
    refine ⟨eventDescription r, r, ⟨hr, ?_⟩, rfl, rfl⟩
    simp only [Bool.or_eq_true, decide_eq_true_eq]
    tauto

/-- Claim C2, witness: the cold record is flagged, via the iff applied at a
one-record table. -/
theorem extreme_flag_witness :
    ∃ d, (coldRec, d) ∈ find_extreme_weather_events [coldRec] :=
  (extreme_flag_iff_strict_thresholds.1 [coldRec] coldRec (by simp)).mpr (by decide)

/-- Claim C3: the description attached to every flagged record is the
concatenation, joined by "; ", of exactly one clause per matching predicate
in the fixed order cold, heat, wind, rain, snow, each clause formatted with
one decimal place (the spec-side `specDescription`). -/
theorem extreme_description_clause_spec :
    ∀ tbl : List ForecastRecord,
      find_extreme_weather_events tbl =
        (tbl.filter isExtreme).map (fun r => (r, specDescription r)) := by
  intro tbl
  unfold find_extreme_weather_events
  rw [show (fun r : ForecastRecord => (r, eventDescription r))
      = (fun r : ForecastRecord => (r, specDescription r)) from
    funext fun r => by rw [eventDescription_eq_spec]]

/-- Claim C4: a payload whose rain (or snow) block is absent, or present
without its 1h/3h sub-field, loads with 0 — not null — in the corresponding
column, for both loaders; and such a load succeeds (concrete runs of both
loaders on payloads with no precipitation blocks insert rows carrying 0). -/
theorem missing_precipitation_loads_as_zero :
    (∀ (fs : List (String × Json)) (p : String) (now : DateTime) (db db1 : LoadDB),
        blockAbsent fs "rain" "1h" → tryLoadCurrent (.obj fs) p now db = .ok db1 →
        ∃ row, db1.current_weather = db.current_weather ++ [row] ∧
          row.rain_1h = SQLVal.num 0) ∧
    (∀ (fs : List (String × Json)) (p : String) (now : DateTime) (db db1 : LoadDB),
        blockAbsent fs "snow" "1h" → tryLoadCurrent (.obj fs) p now db = .ok db1 →
        ∃ row, db1.current_weather = db.current_weather ++ [row] ∧
          row.snow_1h = SQLVal.num 0) ∧
    (∀ (efs : List (String × Json)) (cid cname cc ra : Json) (f : ForecastFields) (row : FcRow),
        blockAbsent efs "rain" "3h" → parseForecastEntry (.obj efs) = .ok f →
        bindFcRow cid cname cc ra f = .ok row → row.rain_3h = SQLVal.num 0) ∧
    (∀ (efs : List (String × Json)) (cid cname cc ra : Json) (f : ForecastFields) (row : FcRow),
        blockAbsent efs "snow" "3h" → parseForecastEntry (.obj efs) = .ok f →
        bindFcRow cid cname cc ra f = .ok row → row.snow_3h = SQLVal.num 0) ∧
    ((tryLoadCurrent samplePayload sampleArtifact.path now0 emptyDB).map
        (fun db => db.current_weather.map (fun r => (r.rain_1h, r.snow_1h))) =
      .ok [(SQLVal.num 0, SQLVal.num 0)]) ∧
    ((tryLoadForecast sampleForecastPayload "raw_data/forecast_london_20231114_221321.json"
          now0 emptyDB).map
        (fun db => db.forecast.map (fun r => (r.rain_3h, r.snow_3h))) =
      .ok [(SQLVal.num 0, SQLVal.num 0)]) := by
  refine ⟨?_, ?_, ?_, ?_, rfl, rfl⟩
  · intro fs p now db db1 habs hload
    obtain ⟨f, row, city, hpf, hbr, _, hcw, _, _⟩ := tryLoadCurrent_ok hload
    have hf0 : f.rain_1h = Json.num 0 :=
      (Except.ok.inj (((getPrecip_absent habs).symm).trans (parseCurrentFields_precip hpf).1)).symm
    have hrow0 : row.rain_1h = SQLVal.num 0 := by
      have := (bindObsRow_precip hbr).1
      rw [hf0] at this
      exact (Except.ok.inj this).symm
    exact ⟨row, hcw, hrow0⟩
  · intro fs p now db db1 habs hload
    obtain ⟨f, row, city, hpf, hbr, _, hcw, _, _⟩ := tryLoadCurrent_ok hload
    have hf0 : f.snow_1h = Json.num 0 :=
      (Except.ok.inj (((getPrecip_absent habs).symm).trans (parseCurrentFields_precip hpf).2)).symm
    have hrow0 : row.snow_1h = SQLVal.num 0 := by
      have := (bindObsRow_precip hbr).2
      rw [hf0] at this
      exact (Except.ok.inj this).symm
    exact ⟨row, hcw, hrow0⟩
  · intro efs cid cname cc ra f row habs hpf hbr
    have hf0 : f.rain_3h = Json.num 0 :=
      (Except.ok.inj (((getPrecip_absent habs).symm).trans (parseForecastEntry_precip hpf).1)).symm
    have := (bindFcRow_precip hbr).1
    rw [hf0] at this
    exact (Except.ok.inj this).symm
  · intro efs cid cname cc ra f row habs hpf hbr
    have hf0 : f.snow_3h = Json.num 0 :=
      (Except.ok.inj (((getPrecip_absent habs).symm).trans (parseForecastEntry_precip hpf).2)).symm
    have := (bindFcRow_precip hbr).2
    rw [hf0] at this
    exact (Except.ok.inj this).symm

/-- Claim C4, witness: the sample payload (no rain block) loads a row whose
rain_1h column is 0. -/
theorem missing_precipitation_witness :
    ∃ row, sampleLoadedDB.current_weather = emptyDB.current_weather ++ [row] ∧
      row.rain_1h = SQLVal.num 0 :=
  missing_precipitation_loads_as_zero.1 samplePayloadFields sampleArtifact.path now0 emptyDB
    sampleLoadedDB (Or.inl rfl) rfl

/-- Claim C5: every emitted anomaly row's baseline is its city's mean over
every loaded forecast record of that city (characterized division-free: the
baseline times the city's record count equals the sum of the city's
temperatures), the anomaly is temperature minus that baseline, and a record
whose temperature equals the baseline gets anomaly 0. -/
theorem anomaly_equals_temperature_minus_city_mean :
    ∀ tbl : List ForecastRecord,
      (calculate_temperature_anomalies tbl).length = tbl.length ∧
      ∀ a ∈ calculate_temperature_anomalies tbl,
        a.city_avg_temp * ((tbl.filter (fun r => r.city_name == a.city_name)).length : ℚ) =
          ((tbl.filter (fun r => r.city_name == a.city_name)).map (fun r => r.temperature)).sum ∧
        a.temp_anomaly = a.temperature - a.city_avg_temp ∧
        (a.temperature = a.city_avg_temp → a.temp_anomaly = 0) := by
  intro tbl
  refine ⟨by simp [calculate_temperature_anomalies], ?_⟩
  intro a ha
  simp only [calculate_temperature_anomalies, List.mem_map] at ha
  obtain ⟨r, hr, rfl⟩ := ha
  refine ⟨?_, rfl, ?_⟩
  · show cityMeanTemp tbl r.city_name * _ = _
    rw [cityMeanTemp]
    have hmem : r ∈ tbl.filter (fun x => x.city_name == r.city_name) :=
      List.mem_filter.mpr ⟨hr, by simp⟩
    have hne : ((tbl.filter (fun x => x.city_name == r.city_name)).length : ℚ) ≠ 0 :=
      Nat.cast_ne_zero.mpr (List.length_pos.mpr (List.ne_nil_of_mem hmem)).ne.symm
    rw [List.length_map]
    exact div_mul_cancel₀ _ hne
  · intro h
    show r.temperature - cityMeanTemp tbl r.city_name = 0
    have h2 : r.temperature = cityMeanTemp tbl r.city_name := h
    rw [h2, sub_self]

/-- Claim C5, witness: in a one-record table the record's temperature equals
the city mean, and the emitted anomaly is 0. -/
theorem anomaly_zero_witness : anomalyRowC.temp_anomaly = 0 :=
  ((anomaly_equals_temperature_minus_city_mean [mildRec]).2 anomalyRowC
    (List.mem_cons_self _ _)).2.2 (by
      show mildRec.temperature = cityMeanTemp [mildRec] mildRec.city_name
      simp [cityMeanTemp, mildRec])

/-- Claim C6: the daily aggregation partitions the forecast set exactly —
for every city and date, the group sizes of that city/date's aggregate rows
(one per country) sum to the number of forecast records with that city and
date. -/
theorem daily_aggregates_partition_exact :
    ∀ (tbl : List ForecastRecord) (city : String) (d : Int),
      (((calculate_daily_aggregates tbl).filter
          (fun a => a.city_name == city && a.date == d)).map
        (fun a => (groupRows tbl (a.city_name, a.country, a.date)).length)).sum =
      (tbl.filter (fun r => r.city_name == city && r.forecast_time.date == d)).length := by
  intro tbl city d
  have key := List.sum_map_count_dedup_filter_eq_countP
    (fun k : String × String × Int => k.1 == city && k.2.2 == d) (tbl.map aggKey)
  simp only [List.count_eq_countP] at key
  simp only [List.countP_map] at key
  simp only [List.countP_eq_length_filter] at key
  unfold calculate_daily_aggregates
  rw [List.filter_map, List.map_map]
  exact key

/-- Claim C7: a transport-level fetch failure for one (city, kind) leaves no
entry in the results for that city and kind, does not raise, and every other
city's successful fetches still get their artifact paths recorded — one
city's failure never aborts the batch. -/
theorem extract_isolates_city_failures :
    ∀ (t : Transport) (ra ts : String) (cities : List String),
      objOnly t.current → objOnly t.forecast →
      ∃ res, extract_weather_data t ra ts cities = .ok res ∧
        (∀ c, t.current c = none → dlookup res.current c = none) ∧
        (∀ c, t.forecast c = none → dlookup res.forecast c = none) ∧
        (∀ c ∈ cities, (t.current c).isSome = true →
          dlookup res.current c = some (save_raw_data_path "current" c ts)) ∧
        (∀ c ∈ cities, (t.forecast c).isSome = true →
          dlookup res.forecast c = some (save_raw_data_path "forecast" c ts)) := by
  intro t ra ts cities hc hf
  obtain ⟨res, hfold, hcur, hfc⟩ := extract_fold_char t ra ts hc hf cities ⟨[], []⟩
  refine ⟨res, hfold, ?_, ?_, ?_, ?_⟩
  · intro c hnone
    rw [hcur c]
    simp [hnone, dlookup, List.find?]
  · intro c hnone
    rw [hfc c]
    simp [hnone, dlookup, List.find?]
  · intro c hmem hsome
    rw [hcur c]
    simp [hmem, hsome]
  · intro c hmem hsome
    rw [hfc c]
    simp [hmem, hsome]

/-- Claim C7, witness: with a transport failing only for Badville's current
fetch, the extraction returns normally, records no current path for
Badville, and still records London's current path. -/
theorem extract_isolates_witness :
    ∃ res, extract_weather_data sampleTransport "ra" "ts" ["Badville,bv", "London,uk"] =
        .ok res ∧
      dlookup res.current "Badville,bv" = none ∧
      dlookup res.current "London,uk" = some (save_raw_data_path "current" "London,uk" "ts") := by
  obtain ⟨res, h1, h2, _, h4, _⟩ := extract_isolates_city_failures sampleTransport "ra" "ts"
    ["Badville,bv", "London,uk"]
    (by
      intro c b h
      simp only [sampleTransport] at h
      split at h
      · cases h
      · cases h; exact ⟨_, rfl⟩)
    (by
      intro c b h
      simp only [sampleTransport] at h
      cases h; exact ⟨_, rfl⟩)
  exact ⟨res, h1, h2 _ (by simp [sampleTransport]),
    h4 "London,uk" (by simp) (by decide)⟩

/-- Claim C8: when no record of the current batch satisfies any extreme
predicate, `run_transformations` leaves the extreme_weather_events table
exactly as it was (a missing table stays missing, an existing one is not
appended to), while the other two derived tables are still written. -/
theorem no_extreme_events_table_untouched :
    ∀ db : TransformDB, (∀ r ∈ db.forecast, isExtreme r = false) →
      (run_transformations db).extreme_weather_events = db.extreme_weather_events ∧
      (run_transformations db).daily_aggregates =
        store_transformed_data db.daily_aggregates (calculate_daily_aggregates db.forecast) ∧
      (run_transformations db).temperature_anomalies =
        store_transformed_data db.temperature_anomalies
          (calculate_temperature_anomalies db.forecast) := by
  intro db h
  have hfil : db.forecast.filter isExtreme = [] :=
    List.filter_eq_nil_iff.mpr (fun a ha => by simp [h a ha])
  have hext : find_extreme_weather_events db.forecast = [] := by
    simp [find_extreme_weather_events, hfil]
  simp [run_transformations, hext]

/-- Claim C8, witness: on a batch whose only record sits on the cold
boundary, the extreme table (absent) is left absent. -/
theorem no_extreme_events_witness :
    (run_transformations sampleTransformDB).extreme_weather_events =
      sampleTransformDB.extreme_weather_events :=
  (no_extreme_events_table_untouched sampleTransformDB (by decide)).1

/-- Claim C9: loading the same well-formed observation artifact twice
appends two observation rows and two provenance rows — the loader performs
no deduplication. -/
theorem duplicate_artifact_load_duplicates_rows :
    ∀ (data : Json) (p : String) (now : DateTime) (db db1 db2 : LoadDB),
      tryLoadCurrent data p now db = .ok db1 →
      load_current_weather (some data) p now db1 = .ok db2 →
      db2.current_weather.length = db.current_weather.length + 2 ∧
      db2.raw_data_files.length = db.raw_data_files.length + 2 := by
  intro data p now db db1 db2 h1 h2
  obtain ⟨f, row, city, hpf, hbr, hcity, hcw, _, hraw⟩ := tryLoadCurrent_ok h1
  have hshift := tryLoadCurrent_shift hpf hbr hcity p now db1
  simp only [load_current_weather, hshift] at h2
  cases h2
  constructor
  · simp [hcw]
  · simp [hraw]

/-- Claim C9, witness: two loads of the sample artifact leave two rows in
each of current_weather and raw_data_files. -/
theorem duplicate_artifact_load_witness :
    sampleLoadedDB2.current_weather.length = emptyDB.current_weather.length + 2 ∧
    sampleLoadedDB2.raw_data_files.length = emptyDB.raw_data_files.length + 2 :=
  duplicate_artifact_load_duplicates_rows samplePayload sampleArtifact.path now0 emptyDB
    sampleLoadedDB sampleLoadedDB2 rfl rfl

/-- Claim C10: the anomaly baseline is keyed by city name alone — rewriting
every record's country leaves every emitted baseline unchanged, and two
emitted rows with the same city name (countries irrelevant) carry the same
baseline. -/
theorem city_mean_ignores_country :
    ∀ (tbl : List ForecastRecord) (g : ForecastRecord → String),
      ((calculate_temperature_anomalies (tbl.map (fun r => { r with country := g r }))).map
          (fun a => a.city_avg_temp) =
        (calculate_temperature_anomalies tbl).map (fun a => a.city_avg_temp)) ∧
      (∀ a b, a ∈ calculate_temperature_anomalies tbl →
        b ∈ calculate_temperature_anomalies tbl →
        a.city_name = b.city_name → a.city_avg_temp = b.city_avg_temp) := by
  intro tbl g
  constructor
  · simp only [calculate_temperature_anomalies, List.map_map]
    rw [show ((fun a : AnomalyRow => a.city_avg_temp) ∘
        ((fun r : ForecastRecord =>
          ({ city_name := r.city_name, country := r.country, forecast_time := r.forecast_time,
             temperature := r.temperature,
             city_avg_temp := cityMeanTemp (tbl.map (fun x => { x with country := g x }))
               r.city_name,
             temp_anomaly := r.temperature -
               cityMeanTemp (tbl.map (fun x => { x with country := g x })) r.city_name }
            : AnomalyRow)) ∘ (fun r => { r with country := g r })))
        = ((fun a : AnomalyRow => a.city_avg_temp) ∘
          (fun r : ForecastRecord =>
            ({ city_name := r.city_name, country := r.country, forecast_time := r.forecast_time,
               temperature := r.temperature,
               city_avg_temp := cityMeanTemp tbl r.city_name,
               temp_anomaly := r.temperature - cityMeanTemp tbl r.city_name } : AnomalyRow)))
      from funext fun r => cityMeanTemp_map_country tbl g r.city_name]
  · intro a b ha hb hname
    simp only [calculate_temperature_anomalies, List.mem_map] at ha hb
    obtain ⟨r, _, rfl⟩ := ha
    obtain ⟨s, _, rfl⟩ := hb
    show cityMeanTemp tbl r.city_name = cityMeanTemp tbl s.city_name
    rw [show r.city_name = s.city_name from hname]

/-- Claim C10, witness: the rows for the two records sharing a city name but
differing in country carry the same baseline. -/
theorem city_mean_ignores_country_witness :
    anomalyRowA.city_avg_temp = anomalyRowB.city_avg_temp :=
  (city_mean_ignores_country [mildRec, mildRec2] (fun _ => "ZZ")).2 anomalyRowA anomalyRowB
    (List.mem_cons_self _ _) (List.mem_cons_of_mem _ (List.mem_cons_self _ _)) rfl

end WeatherPipeline
